import Mathlib

/-!
Verification development for the telecom.py withdrawal bot
(`src/main_telebot.py`).

The pure validation utilities and all handler control flow are translated
directly from the source.  The `bot.database` module (the `db` object) is
part of the repository but is not under `src/`; every operation of it that
the handlers call is modelled from the specification (sections 3, 4.2 and
4.4) and is marked `Modelled from the spec:` in its doc comment.

Amounts are modelled as rationals, chat-message side effects as values of
small outcome types, and the cooperative interleaving of the background
confirmation tasks with user actions as explicit oracles (`failAt`,
`activeAt`).
-/

namespace Telecom

/-- Characters Python's `str.strip()` removes (ASCII whitespace). -/
def isPySpace (c : Char) : Bool :=
  c = ' ' || c = '\t' || c = '\n' || c = '\r' || c = '\x0b' || c = '\x0c'

/-- Python `s.strip()`: drop leading and trailing whitespace. -/
def pyStrip (s : String) : String :=
  ⟨((s.data.dropWhile isPySpace).reverse.dropWhile isPySpace).reverse⟩

/-- Membership in the hex alphabet `0123456789abcdefABCDEF` used by
`validate_txid`. -/
def isHexDigitChar (c : Char) : Bool :=
  ("0123456789abcdefABCDEF".data).contains c

/-- Membership in the base58 alphabet used by `validate_txid` for SOL. -/
def isBase58Char (c : Char) : Bool :=
  ("123456789ABCDEFGHJKLMNPQRSTUVWXYZabcdefghijkmnopqrstuvwxyz".data).contains c

/-- `validate_txid(txid, token)` from `src/main_telebot.py` lines 59-85:
empty input is rejected, the input is stripped, then a per-asset-family
structural check is applied to the stripped string. -/
def validate_txid (txid : String) (token : String) : Bool :=
  if txid.isEmpty then false
  else
    let t := pyStrip txid
    if token = "BTC" then
      t.length == 64 && t.data.all isHexDigitChar
    else if token = "ETH" || token = "USDT" || token = "BNB" ||
            token = "MATIC" || token = "LINK" then
      t.length == 66 && t.startsWith "0x" && (t.drop 2).data.all isHexDigitChar
    else if token = "SOL" then
      t.length == 88 && t.data.all isBase58Char
    else if token = "ADA" then
      t.length == 64 && t.data.all isHexDigitChar
    else
      false

/-- `get_token_confirmation_requirement(token)` from lines 87-99: fixed
lookup table with default 3. -/
def get_token_confirmation_requirement (token : String) : Nat :=
  if token = "BTC" then 2
  else if token = "ETH" then 6
  else if token = "USDT" then 6
  else if token = "BNB" then 3
  else if token = "MATIC" then 3
  else if token = "SOL" then 1
  else if token = "ADA" then 5
  else if token = "LINK" then 6
  else 3

/-- `get_fee_payment_token(withdrawal_token)` from lines 6185-6198: maps a
withdrawal token to the token its fee is paid in, default ETH. -/
def get_fee_payment_token (withdrawal_token : String) : String :=
  if withdrawal_token = "BTC" then "BTC"
  else if withdrawal_token = "ETH" then "ETH"
  else if withdrawal_token = "SOL" then "SOL"
  else if withdrawal_token = "USDT" then "ETH"
  else if withdrawal_token = "BNB" then "BNB"
  else if withdrawal_token = "MATIC" then "ETH"
  else if withdrawal_token = "ADA" then "ADA"
  else if withdrawal_token = "LINK" then "ETH"
  else "ETH"

/-- `is_admin(user_id)` from lines 55-57, with the configured
`ADMIN_USER_ID` passed explicitly. -/
def is_admin (adminId : Option Nat) (user_id : Nat) : Bool :=
  match adminId with
  | none => false
  | some a => user_id == a

/-! ## Fee-payment ledger, withdrawals and portfolio (the `db` object)

The `Database` class lives in `bot/database.py`, which is not under
`src/`; the records and operations below are modelled from spec sections
3, 4.2 and 4.4, keeping the method names used at the call sites in
`src/main_telebot.py`. -/

/-- Status of a fee payment: spec section 3, `status ∈ {pending, verified,
rejected}`. -/
inductive PayStatus where
  | pending
  | verified
  | rejected
deriving DecidableEq, Repr

/-- Modelled from the spec: a FeePayment record (spec section 3), with the
fields the handlers in `src/main_telebot.py` read and the `payment_data`
dict they write (lines 5966-5974). -/
structure FeePayment where
  id : Nat
  user_id : Nat
  token : String
  expected_amount : ℚ
  txid : String
  network : String
  withdrawal_token : String
  withdrawal_amount : ℚ
  confirmations : Nat
  status : PayStatus
deriving DecidableEq, Repr

/-- Modelled from the spec: a Withdrawal record (spec section 3), as
produced by the atomic gate and read back at lines 6279-6282. -/
structure Withdrawal where
  id : Nat
  user_id : Nat
  token : String
  amount : ℚ
  fee_amount : ℚ
  fee_token : String
  fee_txid : String
  fee_payment_id : Nat
  to_address : String
deriving DecidableEq, Repr

/-- Modelled from the spec: the persistent state behind the `db` object —
fee-payment ledger, withdrawal records and the per-user per-asset
portfolio holdings (spec sections 3 and 6).  Holdings are an association
list keyed by user id and token. -/
structure DBState where
  feePayments : List FeePayment
  withdrawals : List Withdrawal
  portfolio : List ((Nat × String) × ℚ)
  nextPaymentId : Nat
  nextWithdrawalId : Nat
deriving DecidableEq, Repr

namespace DBState

/-- Modelled from the spec: `get_user_portfolio(user_id)` restricted to one
token — the quantity the user holds of it, if any (spec section 6 portfolio
store contract). -/
def getHolding (st : DBState) (user_id : Nat) (token : String) : Option ℚ :=
  (st.portfolio.find? (fun e => e.1 == (user_id, token))).map (·.2)

/-- Modelled from the spec: `update_portfolio(user_id, token, delta, price)`
of the missing `bot/database.py`.  It adjusts the user's holding by
`delta`; a holding never goes below zero (the call site at line 6285
documents its effect as removing the token by setting the amount to 0, and
spec section 3 has the gate debit exactly the full gross amount). -/
def update_portfolio (st : DBState) (user_id : Nat) (token : String)
    (delta : ℚ) : DBState :=
  let old := (st.getHolding user_id token).getD 0
  let amount := max 0 (old + delta)
  { st with portfolio :=
      ((user_id, token), amount) ::
        st.portfolio.filter (fun e => !(e.1 == (user_id, token))) }

/-- Modelled from the spec: `find_by_txid(txid)` (spec section 4.2) —
case-sensitive exact match against every prior record, any user.  This is
`db.get_fee_payment_by_txid` at line 5938. -/
def get_fee_payment_by_txid (st : DBState) (txid : String) :
    Option FeePayment :=
  st.feePayments.find? (fun p => p.txid == txid)

/-- Modelled from the spec: `get(id)` (spec section 4.2).  This is
`db.get_fee_payment_by_id` at line 6062. -/
def get_fee_payment_by_id (st : DBState) (pid : Nat) : Option FeePayment :=
  st.feePayments.find? (fun p => p.id == pid)

/-- Modelled from the spec: `create(payment_draft)` (spec section 4.2) —
rejects (returns no id) if the txid is already present for any prior
record, case-sensitively; otherwise inserts with status pending and
confirmations 0.  This is `db.create_fee_payment` at line 5975; newest
records come first. -/
def create_fee_payment (st : DBState) (user_id : Nat) (token : String)
    (expected_amount : ℚ) (txid : String) (network : String)
    (withdrawal_token : String) (withdrawal_amount : ℚ) :
    Option Nat × DBState :=
  match st.get_fee_payment_by_txid txid with
  | some _ => (none, st)
  | none =>
      let p : FeePayment :=
        { id := st.nextPaymentId, user_id := user_id, token := token,
          expected_amount := expected_amount, txid := txid,
          network := network, withdrawal_token := withdrawal_token,
          withdrawal_amount := withdrawal_amount, confirmations := 0,
          status := .pending }
      (some st.nextPaymentId,
        { st with feePayments := p :: st.feePayments,
                  nextPaymentId := st.nextPaymentId + 1 })

/-- Modelled from the spec: `advance_confirmations(id, new_count)` (spec
section 4.2) — monotonic update, no-op if the new count is lower.  This is
`db.update_fee_payment_confirmations` at line 6095. -/
def update_fee_payment_confirmations (st : DBState) (pid : Nat)
    (new_count : Nat) : DBState :=
  { st with feePayments := st.feePayments.map (fun p =>
      if p.id == pid && p.confirmations ≤ new_count then
        { p with confirmations := new_count }
      else p) }

/-- Modelled from the spec: `mark_verified(id)` (spec section 4.2) —
terminal transition, a no-op if the record was already rejected (verified
and rejected are mutually exclusive and sticky).  This is
`db.mark_fee_payment_verified` at line 6118. -/
def mark_fee_payment_verified (st : DBState) (pid : Nat) : DBState :=
  { st with feePayments := st.feePayments.map (fun p =>
      if p.id == pid && !(p.status == PayStatus.rejected) then
        { p with status := .verified }
      else p) }

/-- Modelled from the spec: `mark_rejected(id)` (spec section 4.2) —
terminal transition, a no-op if the record was already verified.  This is
`db.mark_fee_payment_rejected` at line 6148. -/
def mark_fee_payment_rejected (st : DBState) (pid : Nat) : DBState :=
  { st with feePayments := st.feePayments.map (fun p =>
      if p.id == pid && !(p.status == PayStatus.verified) then
        { p with status := .rejected }
      else p) }

/-- Whether a fee payment id has been consumed, i.e. is referenced by some
Withdrawal record (spec section 3, consumption). -/
def isConsumed (st : DBState) (pid : Nat) : Bool :=
  st.withdrawals.any (fun w => w.fee_payment_id == pid)

/-- Modelled from the spec:
`find_latest_verified_unconsumed(user_id, asset)` (spec section 4.2) —
the latest FeePayment of that user and asset with status verified that is
not referenced by any Withdrawal.  Ledger lists are newest-first, so the
first match is the latest.  `db.get_user_verified_fee_payment` (lines 2428
and 2566) is this lookup. -/
def find_latest_verified_unconsumed (st : DBState) (user_id : Nat)
    (asset : String) : Option FeePayment :=
  st.feePayments.find? (fun p =>
    p.user_id == user_id && p.token == asset &&
      p.status == PayStatus.verified && !(st.isConsumed p.id))

end DBState

/-- Result of the atomic withdrawal gate: a structured rejection with a
machine-readable reason and a human-readable message, or success carrying
the created withdrawal id, fee amount/asset, net amount and the consumed
fee payment's txid (spec section 4.4). -/
inductive GateResult where
  | rejected (reason : String) (message : String)
  | approved (withdrawal_id : Nat) (fee_amount : ℚ) (fee_token : String)
      (net_amount : ℚ) (fee_txid : String)
deriving DecidableEq, Repr

/-- Whether a gate result is a success, mirroring
`withdrawal_result['success']` read at line 6244. -/
def GateResult.success : GateResult → Bool
  | .rejected _ _ => false
  | .approved _ _ _ _ _ => true

/-- Modelled from the spec: `db.atomic_create_verified_withdrawal` (called
at line 6236) lives in the missing `bot/database.py`; spec section 4.4
defines it as one logically atomic unit: (1) look up
`find_latest_verified_unconsumed(user_id, fee_asset_for(asset))` and
return the structured rejection `no_verified_fee_payment` mutating nothing
when none exists; (2) fee = 10 percent of gross, net = gross - fee;
(3) create the Withdrawal record referencing (consuming) the FeePayment;
(4) debit the user's holding by the gross amount — rejecting, mutating
nothing, when the gross amount exceeds the current holding; (5) return the
ids and amounts.  Steps 3 and 4 happen in the same state transition. -/
def atomic_create_verified_withdrawal (st : DBState) (user_id : Nat)
    (withdrawal_token : String) (withdrawal_amount : ℚ)
    (to_address : String) : GateResult × DBState :=
  match st.find_latest_verified_unconsumed user_id
      (get_fee_payment_token withdrawal_token) with
  | none =>
      (.rejected "no_verified_fee_payment"
        "No verified fee payment found for this withdrawal", st)
  | some fp =>
      if withdrawal_amount ≤ (st.getHolding user_id withdrawal_token).getD 0
      then
        let fee := withdrawal_amount * (1 / 10)
        let net := withdrawal_amount - fee
        let w : Withdrawal :=
          { id := st.nextWithdrawalId, user_id := user_id,
            token := withdrawal_token, amount := withdrawal_amount,
            fee_amount := fee, fee_token := get_fee_payment_token withdrawal_token,
            fee_txid := fp.txid, fee_payment_id := fp.id,
            to_address := to_address }
        let st1 : DBState :=
          { st with withdrawals := w :: st.withdrawals,
                    nextWithdrawalId := st.nextWithdrawalId + 1 }
        (.approved st.nextWithdrawalId fee
            (get_fee_payment_token withdrawal_token) net fp.txid,
          st1.update_portfolio user_id withdrawal_token (-withdrawal_amount))
      else
        (.rejected "insufficient_balance"
          "Withdrawal amount exceeds current holding", st)

/-! ## Per-user conversational state and the handlers (`src/main_telebot.py`) -/

/-- An entry of the in-memory `user_withdrawal_states` dict (line 37), as
populated at lines 2327-2334, 2470-2475, 2578-2584 and 6018-6022. -/
structure WUserState where
  token : String
  withdrawal_token : String
  withdrawal_amount : ℚ
  fee_amount : ℚ
  net_amount : ℚ
  step : String
  payment_id : Option Nat
  txid : Option String
  fee_verified : Bool
deriving DecidableEq, Repr

/-- The state the withdrawal handlers touch: the database plus the
per-user `user_withdrawal_states` map (as an association list). -/
structure SysState where
  db : DBState
  wstates : List (Nat × WUserState)
deriving DecidableEq, Repr

/-- Lookup in an association list keyed by user id (Python dict read). -/
def lookupUser {α : Type} (m : List (Nat × α)) (user_id : Nat) : Option α :=
  (m.find? (fun e => e.1 == user_id)).map (·.2)

/-- Removal from an association list keyed by user id (Python `del` /
`pop`). -/
def eraseUser {α : Type} (m : List (Nat × α)) (user_id : Nat) :
    List (Nat × α) :=
  m.filter (fun e => !(e.1 == user_id))

/-- Overwrite in an association list keyed by user id (Python dict
write). -/
def setUser {α : Type} (m : List (Nat × α)) (user_id : Nat) (v : α) :
    List (Nat × α) :=
  (user_id, v) :: eraseUser m user_id

/-- Observable outcome of `process_txid_input` (lines 5900-6038): which
message path the handler took. -/
inductive TxidOutcome where
  | notEnteringTxid
  | invalidFormat
  | alreadyUsed
  | systemError
  | verificationStarted (payment_id : Nat) (required : Nat)
deriving DecidableEq, Repr

/-- `process_txid_input(chat_id, user_id, txid)` from lines 5900-6038:
requires an `entering_txid` withdrawal state, validates the TXID format,
rejects an already-used TXID (lines 5937-5960) before any record is
created, otherwise creates the fee payment, moves the user state to
`verifying` and starts the confirmation simulation.  The `network` string
comes from the config table, passed in as `fee_network`. -/
def process_txid_input (sys : SysState) (user_id : Nat) (txid : String)
    (fee_network : String) : TxidOutcome × SysState :=
  match lookupUser sys.wstates user_id with
  | none => (.notEnteringTxid, sys)
  | some wst =>
      if !(wst.step == "entering_txid") then (.notEnteringTxid, sys)
      else if !(validate_txid txid wst.token) then (.invalidFormat, sys)
      else
        match sys.db.get_fee_payment_by_txid txid with
        | some _ => (.alreadyUsed, sys)
        | none =>
            match sys.db.create_fee_payment user_id wst.token
                wst.fee_amount txid fee_network wst.withdrawal_token
                wst.withdrawal_amount with
            | (none, _) => (.systemError, sys)
            | (some pid, db') =>
                let required := get_token_confirmation_requirement wst.token
                (.verificationStarted pid required,
                  { db := db',
                    wstates := setUser sys.wstates user_id
                      { wst with step := "verifying", payment_id := some pid,
                                 txid := some txid } })

/-- Observable outcome of `process_withdrawal_address_input`
(lines 6200-6337). -/
inductive AddrOutcome where
  | noState
  | invalidAddress
  | tokenNotInPortfolio
  | securityBlock (reason : String)
  | approved (withdrawal_id : Nat) (fee_amount : ℚ) (fee_token : String)
      (fee_txid : String)
deriving DecidableEq, Repr

/-- `process_withdrawal_address_input(chat_id, user_id, wallet_address)`
from lines 6200-6337: requires a withdrawal state, strips and
length-checks the address (20..100 characters), reads the user's current
holding of the state's token fresh from the portfolio, calls the atomic
gate with that entire holding as the gross amount, reports the gate's
structured rejection (clearing the user state) on failure, and on success
zeroes the holding (line 6285) and clears the user state. -/
def process_withdrawal_address_input (sys : SysState) (user_id : Nat)
    (wallet_address : String) : AddrOutcome × SysState :=
  match lookupUser sys.wstates user_id with
  | none => (.noState, sys)
  | some wst =>
      let token := wst.token
      let addr := pyStrip wallet_address
      if addr.length < 20 || addr.length > 100 then (.invalidAddress, sys)
      else
        match sys.db.getHolding user_id token with
        | none =>
            (.tokenNotInPortfolio,
              { sys with wstates := eraseUser sys.wstates user_id })
        | some token_amount =>
            match atomic_create_verified_withdrawal sys.db user_id token
                token_amount addr with
            | (.rejected reason _, db') =>
                (.securityBlock reason,
                  { db := db', wstates := eraseUser sys.wstates user_id })
            | (.approved wid fee feeTok _net feeTxid, db') =>
                let db'' := db'.update_portfolio user_id token (-token_amount)
                (.approved wid fee feeTok feeTxid,
                  { db := db'', wstates := eraseUser sys.wstates user_id })

/-- Observable outcome of the `enter_address_` callback branch
(lines 2560-2600). -/
inductive EnterAddrOutcome where
  | securityBlockMsg
  | promptAddress
deriving DecidableEq, Repr

/-- The `enter_address_` branch of `handle_callback_query`
(lines 2560-2600): unless the user already carries a `fee_verified`
withdrawal state, it re-checks the ledger for a verified fee payment and
refuses with a security-block message when none exists; only then does it
set the `entering_address` step. -/
def handle_enter_address_callback (sys : SysState) (user_id : Nat)
    (token : String) : EnterAddrOutcome × SysState :=
  let needCheck :=
    match lookupUser sys.wstates user_id with
    | none => true
    | some w => !w.fee_verified
  if needCheck then
    match sys.db.find_latest_verified_unconsumed user_id token with
    | none => (.securityBlockMsg, sys)
    | some vp =>
        let fresh : WUserState :=
          { token := token, withdrawal_token := token,
            withdrawal_amount := 0, fee_amount := 0, net_amount := 0,
            step := "entering_address", payment_id := some vp.id,
            txid := none, fee_verified := true }
        (.promptAddress,
          { sys with wstates := setUser sys.wstates user_id fresh })
  else
    match lookupUser sys.wstates user_id with
    | none => (.securityBlockMsg, sys)
    | some w =>
        let w' : WUserState := { w with step := "entering_address" }
        (.promptAddress, { sys with wstates := setUser sys.wstates user_id w' })

/-! ## Conversational input router (`handle_text_input`, lines 5270-5338) -/

/-- The per-user state maps the router consults, in their source order
(lines 35-42).  `user_states` holds the support / bug-report flag. -/
structure RouterState where
  users_inputting_trader_id : List Nat
  users_connecting_wallet : List (Nat × String)
  admin_balance_operations : List (Nat × String)
  admin_ban_operations : List (Nat × String)
  user_withdrawal_states : List (Nat × WUserState)
  user_states : List (Nat × String)
deriving DecidableEq, Repr

/-- Which handler (if any) the router hands the message to.  The two
`discardStale` outcomes send no reply at all; `defaultReply` is the
generic menu response at lines 5333-5338. -/
inductive RouterAction where
  | traderIdInput (text : String)
  | walletCredentials (wallet_type : String) (text : String)
  | adminBalanceInput (text : String)
  | discardStaleAdminBalance
  | adminBanInput (text : String)
  | discardStaleAdminBan
  | txidInput (text : String)
  | addressInput (text : String)
  | supportMessage (text : String)
  | bugReport (text : String)
  | defaultReply
deriving DecidableEq, Repr

/-- `handle_text_input(message)` from lines 5270-5338: the incoming text is
stripped, then the state buckets are checked in source order — trader-id
entry, wallet connection, admin balance operation (admin-gated, stale
state silently dropped for non-admins), admin ban operation (same gating),
withdrawal state (`entering_txid` goes to TXID validation, any other step
to address collection), support / bug-report state, and otherwise the
generic default reply.  Exactly one branch runs per message. -/
def handle_text_input (adminId : Option Nat) (st : RouterState)
    (user_id : Nat) (raw : String) : RouterAction × RouterState :=
  let text := pyStrip raw
  if st.users_inputting_trader_id.contains user_id then
    (.traderIdInput text,
      { st with users_inputting_trader_id :=
          st.users_inputting_trader_id.filter (fun u => !(u == user_id)) })
  else
    match lookupUser st.users_connecting_wallet user_id with
    | some wallet_type =>
        (.walletCredentials wallet_type text,
          { st with users_connecting_wallet :=
              eraseUser st.users_connecting_wallet user_id })
    | none =>
        if (lookupUser st.admin_balance_operations user_id).isSome then
          if is_admin adminId user_id then (.adminBalanceInput text, st)
          else
            (.discardStaleAdminBalance,
              { st with admin_balance_operations :=
                  eraseUser st.admin_balance_operations user_id })
        else if (lookupUser st.admin_ban_operations user_id).isSome then
          if is_admin adminId user_id then (.adminBanInput text, st)
          else
            (.discardStaleAdminBan,
              { st with admin_ban_operations :=
                  eraseUser st.admin_ban_operations user_id })
        else
          match lookupUser st.user_withdrawal_states user_id with
          | some wst =>
              if wst.step == "entering_txid" then (.txidInput text, st)
              else (.addressInput text, st)
          | none =>
              match lookupUser st.user_states user_id with
              | some s =>
                  if s == "waiting_for_support_message" then
                    (.supportMessage text,
                      { st with user_states := eraseUser st.user_states user_id })
                  else if s == "waiting_for_bug_report" then
                    (.bugReport text,
                      { st with user_states := eraseUser st.user_states user_id })
                  else (.defaultReply, st)
              | none => (.defaultReply, st)

/-! ## Confirmation-accrual scheduler
(`simulate_blockchain_confirmations`, lines 6056-6148)

The task runs concurrently with user actions, so two aspects are modelled
as oracles: `failAt k` means an unexpected exception is raised at the
start of loop iteration `k` (caught by the outer handler, lines
6145-6148), and `activeAt k` is the truth value of the membership test
`user_id in user_withdrawal_states` (line 6113) at iteration `k`, since
that dict is mutated concurrently by the user.  A failure of the progress
notification `bot.send_message` is caught locally (lines 6134-6137) and
touches no state, so it needs no parameter here: the model makes it
manifest that notification delivery cannot influence the ledger.  The
user-state write at line 6126 only moves the conversational step to
`verified` and is not part of the ledger state. -/

/-- One run of the scheduler: the successive confirmation counts written
to the ledger, the final database, and whether `mark_verified` /
`mark_rejected` were called. -/
structure SchedResult where
  writes : List Nat
  final : DBState
  verifiedCalled : Bool
  rejectedCalled : Bool
deriving DecidableEq, Repr

/-- The `for confirmation in range(1, required_confirmations + 1)` loop of
lines 6085-6141, over the list of remaining iteration indices.  An
exception (`failAt`) aborts the loop into the outer handler, which calls
`mark_rejected`; otherwise the iteration writes its confirmation count,
and, when the count has reached the requirement and the user is still in
the withdrawal flow, calls `mark_verified`; the loop breaks once the
requirement is reached. -/
def schedLoop (pid : Nat) (required : Nat) (failAt : Option Nat)
    (activeAt : Nat → Bool) : List Nat → DBState → SchedResult
  | [], db => { writes := [], final := db,
                verifiedCalled := false, rejectedCalled := false }
  | k :: rest, db =>
      if failAt == some k then
        { writes := [], final := db.mark_fee_payment_rejected pid,
          verifiedCalled := false, rejectedCalled := true }
      else
        let db1 := db.update_fee_payment_confirmations pid k
        if required ≤ k then
          if activeAt k then
            { writes := [k], final := db1.mark_fee_payment_verified pid,
              verifiedCalled := true, rejectedCalled := false }
          else
            { writes := [k], final := db1,
              verifiedCalled := false, rejectedCalled := false }
        else
          let r := schedLoop pid required failAt activeAt rest db1
          { r with writes := k :: r.writes }

/-- `simulate_blockchain_confirmations(payment_id, required_confirmations)`
from lines 6056-6148: fetch the payment — returning silently, with no
ledger write at all, when it is absent (lines 6062-6064) — then run the
confirmation loop. -/
def simulate_blockchain_confirmations (db : DBState) (pid : Nat)
    (required : Nat) (failAt : Option Nat) (activeAt : Nat → Bool) :
    SchedResult :=
  match db.get_fee_payment_by_id pid with
  | none => { writes := [], final := db,
              verifiedCalled := false, rejectedCalled := false }
  | some _ => schedLoop pid required failAt activeAt
      (List.range' 1 required) db

/-- The status the ledger records for payment id `pid`, if present. -/
def statusOf (db : DBState) (pid : Nat) : Option PayStatus :=
  (db.get_fee_payment_by_id pid).map (·.status)

/-- Finding in a mapped ledger when the map preserves ids. -/
theorem find_map_eq_id {l : List FeePayment} {f : FeePayment → FeePayment}
    (hid : ∀ p, (f p).id = p.id) (pid : Nat) :
    (l.map f).find? (fun p => p.id == pid) =
      (l.find? (fun p => p.id == pid)).map f := by
  induction l with
  | nil => rfl
  | cons p l ih =>
      simp only [List.map_cons, List.find?_cons, hid p]
      by_cases h : (p.id == pid) = true
      · simp [h]
      · simp only [Bool.not_eq_true] at h
        simp [h, ih]

/-- Writing a confirmation count never changes any payment's status. -/
theorem statusOf_update_confirmations (db : DBState) (pid pid' c : Nat) :
    statusOf (db.update_fee_payment_confirmations pid' c) pid =
      statusOf db pid := by
  unfold statusOf DBState.get_fee_payment_by_id
    DBState.update_fee_payment_confirmations
  rw [find_map_eq_id (fun p => by split <;> rfl)]
  cases db.feePayments.find? (fun p => p.id == pid) with
  | none => rfl
  | some p =>
      simp only [Option.map_map, Option.map_some']
      split <;> rfl

/-- `mark_verified` turns a payment that is not already rejected into a
verified one. -/
theorem statusOf_mark_verified (db : DBState) (pid : Nat) (s : PayStatus)
    (hs : statusOf db pid = some s) (hr : s ≠ PayStatus.rejected) :
    statusOf (db.mark_fee_payment_verified pid) pid =
      some PayStatus.verified := by
  unfold statusOf DBState.get_fee_payment_by_id
    DBState.mark_fee_payment_verified
  rw [find_map_eq_id (fun p => by split <;> rfl)]
  unfold statusOf DBState.get_fee_payment_by_id at hs
  cases hfind : db.feePayments.find? (fun p => p.id == pid) with
  | none => rw [hfind] at hs; simp at hs
  | some p =>
      rw [hfind] at hs
      simp only [Option.map_some', Option.some_inj] at hs
      have hp : (p.id == pid) = true := by
        have := List.find?_some hfind
        exact this
      have hps : (p.status == PayStatus.rejected) = false := by
        subst hs
        cases hq : p.status <;> simp_all
      have hcond : (p.id == pid && !(p.status == PayStatus.rejected)) = true := by
        simp [hp, hps]
      simp only [Option.map_map, Option.map_some', Function.comp_apply, hcond,
        if_true]

/-- `mark_rejected` turns a payment that is not already verified into a
rejected one. -/
theorem statusOf_mark_rejected (db : DBState) (pid : Nat) (s : PayStatus)
    (hs : statusOf db pid = some s) (hr : s ≠ PayStatus.verified) :
    statusOf (db.mark_fee_payment_rejected pid) pid =
      some PayStatus.rejected := by
  unfold statusOf DBState.get_fee_payment_by_id
    DBState.mark_fee_payment_rejected
  rw [find_map_eq_id (fun p => by split <;> rfl)]
  unfold statusOf DBState.get_fee_payment_by_id at hs
  cases hfind : db.feePayments.find? (fun p => p.id == pid) with
  | none => rw [hfind] at hs; simp at hs
  | some p =>
      rw [hfind] at hs
      simp only [Option.map_some', Option.some_inj] at hs
      have hp : (p.id == pid) = true := by
        have := List.find?_some hfind
        exact this
      have hps : (p.status == PayStatus.verified) = false := by
        subst hs
        cases hq : p.status <;> simp_all
      have hcond : (p.id == pid && !(p.status == PayStatus.verified)) = true := by
        simp [hp, hps]
      simp only [Option.map_map, Option.map_some', Function.comp_apply, hcond,
        if_true]

/-- Every asset requires at least one confirmation (the table's minimum is
SOL's 1, the default 3). -/
theorem one_le_requirement (token : String) :
    1 ≤ get_token_confirmation_requirement token := by
  unfold get_token_confirmation_requirement
  split_ifs <;> norm_num

/-- The confirmation counts a scheduler loop writes form a contiguous
ascending run starting at the first iteration index. -/
theorem schedLoop_writes (pid required : Nat) (failAt : Option Nat)
    (activeAt : Nat → Bool) :
    ∀ (n k : Nat) (db : DBState),
      ∃ m ≤ n,
        (schedLoop pid required failAt activeAt (List.range' k n) db).writes
          = List.range' k m := by
  intro n
  induction n with
  | zero => intro k db; exact ⟨0, Nat.le_refl 0, rfl⟩
  | succ n ih =>
      intro k db
      rw [List.range'_succ]
      by_cases hf : (failAt == some k) = true
      · exact ⟨0, Nat.zero_le _, by simp [schedLoop, hf]⟩
      · by_cases hreq : required ≤ k
        · by_cases ha : activeAt k = true
          · exact ⟨1, by omega, by simp [schedLoop, hf, hreq, ha]⟩
          · exact ⟨1, by omega, by simp [schedLoop, hf, hreq, ha]⟩
        · obtain ⟨m, hm, hw⟩ := ih (k + 1)
            (db.update_fee_payment_confirmations pid k)
          refine ⟨m + 1, by omega, ?_⟩
          simp only [schedLoop, hf, hreq, if_false, Bool.false_eq_true]
          rw [List.range'_succ]
          simpa using hw

/-- If the loop calls `mark_verified`, the last confirmation count written
was exactly the requirement. -/
theorem schedLoop_verified_last (pid required : Nat) (failAt : Option Nat)
    (activeAt : Nat → Bool) :
    ∀ (n k : Nat) (db : DBState), k ≤ required →
      (schedLoop pid required failAt activeAt (List.range' k n) db).verifiedCalled
          = true →
      (schedLoop pid required failAt activeAt (List.range' k n) db).writes.getLast?
          = some required := by
  intro n
  induction n with
  | zero => intro k db _ hv; simp [schedLoop] at hv
  | succ n ih =>
      intro k db hk hv
      rw [List.range'_succ] at hv ⊢
      by_cases hf : (failAt == some k) = true
      · simp [schedLoop, hf] at hv
      · by_cases hreq : required ≤ k
        · have hk' : k = required := Nat.le_antisymm hk hreq
          subst hk'
          have hf' : ¬ failAt = some k := by simpa using hf
          by_cases ha : activeAt k = true
          · simp [schedLoop, hf', hreq, ha]
          · simp [schedLoop, hf', hreq, ha] at hv
        · have hk1 : k + 1 ≤ required := by omega
          simp only [schedLoop, hf, hreq, if_false, Bool.false_eq_true] at hv ⊢
          have htail := ih (k + 1)
            (db.update_fee_payment_confirmations pid k) hk1 hv
          have hmem : required ∈
              (schedLoop pid required failAt activeAt
                (List.range' (k + 1) n)
                (db.update_fee_payment_confirmations pid k)).writes.getLast? := by
            rw [htail]; rfl
          simpa using List.mem_getLast?_cons hmem

/-- If the loop calls `mark_verified` on a pending payment, the payment
ends up verified. -/
theorem schedLoop_verified_status (pid required : Nat) (failAt : Option Nat)
    (activeAt : Nat → Bool) :
    ∀ (n k : Nat) (db : DBState), statusOf db pid = some .pending →
      (schedLoop pid required failAt activeAt (List.range' k n) db).verifiedCalled
          = true →
      statusOf
        (schedLoop pid required failAt activeAt (List.range' k n) db).final pid
          = some .verified := by
  intro n
  induction n with
  | zero => intro k db _ hv; simp [schedLoop] at hv
  | succ n ih =>
      intro k db hp hv
      rw [List.range'_succ] at hv ⊢
      by_cases hf : (failAt == some k) = true
      · simp [schedLoop, hf] at hv
      · by_cases hreq : required ≤ k
        · by_cases ha : activeAt k = true
          · simp only [schedLoop, hf, hreq, ha, if_true, Bool.false_eq_true,
              if_false]
            have hp1 : statusOf
                (db.update_fee_payment_confirmations pid k) pid
                  = some .pending := by
              rw [statusOf_update_confirmations]; exact hp
            exact statusOf_mark_verified _ pid .pending hp1 (by simp)
          · simp [schedLoop, hf, hreq, ha] at hv
        · simp only [schedLoop, hf, hreq, if_false, Bool.false_eq_true]
            at hv ⊢
          have hp1 : statusOf (db.update_fee_payment_confirmations pid k) pid
              = some .pending := by
            rw [statusOf_update_confirmations]; exact hp
          exact ih (k + 1) _ hp1 hv

/-- If no failure occurs and the user is still in the withdrawal flow at
the final confirmation, the loop calls `mark_verified`. -/
theorem schedLoop_completes (pid required : Nat) (activeAt : Nat → Bool)
    (hact : activeAt required = true) :
    ∀ (n k : Nat) (db : DBState), k + n = required + 1 → 1 ≤ n →
      (schedLoop pid required none activeAt (List.range' k n) db).verifiedCalled
        = true := by
  intro n
  induction n with
  | zero => intro k db _ h; omega
  | succ n ih =>
      intro k db hkn _
      rw [List.range'_succ]
      have hf : ((none : Option Nat) == some k) = false := rfl
      by_cases hn : n = 0
      · subst hn
        have hk : k = required := by omega
        subst hk
        simp [schedLoop, hf, hact]
      · have hreq : ¬ required ≤ k := by omega
        simp only [schedLoop, hf, Bool.false_eq_true, if_false, hreq]
        exact ih (k + 1) _ (by omega) (by omega)

/-- An unexpected failure inside the loop leads to `mark_rejected` and a
terminal rejected status for a pending payment. -/
theorem schedLoop_failure_rejects (pid required j : Nat)
    (activeAt : Nat → Bool) :
    ∀ (n k : Nat) (db : DBState), k ≤ j → j < k + n → j ≤ required →
      statusOf db pid = some .pending →
      (schedLoop pid required (some j) activeAt (List.range' k n) db).rejectedCalled
          = true ∧
      statusOf
        (schedLoop pid required (some j) activeAt (List.range' k n) db).final
          pid = some .rejected := by
  intro n
  induction n with
  | zero => intro k db h1 h2 _ _; omega
  | succ n ih =>
      intro k db hkj hjn hjr hp
      rw [List.range'_succ]
      by_cases hjk : j = k
      · subst hjk
        have hf : ((some j : Option Nat) == some j) = true := by simp
        refine ⟨by simp [schedLoop, hf], ?_⟩
        simp only [schedLoop, hf, if_true]
        exact statusOf_mark_rejected db pid .pending hp (by simp)
      · have hf : ((some j : Option Nat) == some k) = false := by
          simp [hjk]
        have hreq : ¬ required ≤ k := by omega
        simp only [schedLoop, hf, Bool.false_eq_true, if_false, hreq]
        have hp1 : statusOf (db.update_fee_payment_confirmations pid k) pid
            = some .pending := by
          rw [statusOf_update_confirmations]; exact hp
        exact ih (k + 1) _ (by omega) (by omega) hjr hp1

/-! ## Specification-side shape predicates for claim C9 -/

/-- The per-asset-family txid shape exactly as the claim words it, applied
to the given string itself: BTC and ADA are 64-character hexadecimal;
ETH, USDT, BNB, MATIC and LINK are 66 characters starting with `0x`
followed by hexadecimal characters; SOL is 88 base58 characters; every
other asset is rejected. -/
def claimed_txid_shape (token : String) (s : String) : Bool :=
  if token = "BTC" || token = "ADA" then
    s.length == 64 && s.data.all isHexDigitChar
  else if token = "ETH" || token = "USDT" || token = "BNB" ||
          token = "MATIC" || token = "LINK" then
    s.length == 66 && s.startsWith "0x" && (s.drop 2).data.all isHexDigitChar
  else if token = "SOL" then
    s.length == 88 && s.data.all isBase58Char
  else false

/-! ## Theorems -/

/-- C9, counterexample: `validate_txid` strips surrounding whitespace
before checking, so this 65-character string (a space followed by 64 hex
characters) is accepted for BTC although it is not a 64-character
hexadecimal string — the claim's "wrong length is rejected" fails on
it. -/
theorem C9_counterexample :
    validate_txid
        " 0123456789abcdef0123456789abcdef0123456789abcdef0123456789abcdef"
        "BTC" = true ∧
      claimed_txid_shape "BTC"
        " 0123456789abcdef0123456789abcdef0123456789abcdef0123456789abcdef"
        = false ∧
      (" 0123456789abcdef0123456789abcdef0123456789abcdef0123456789abcdef" :
        String).length ≠ 64 := by
  refine ⟨by decide, by decide, by decide⟩

/-- C9, amended: `validate_txid` is a pure structural check that first
strips leading and trailing whitespace; on the stripped string it accepts
exactly the per-asset-family shapes the claim lists (64-hex for BTC/ADA,
0x plus 64 hex for the ETH family, 88 base58 for SOL), and it returns
false for empty input and for every input whose stripped form is
structurally invalid. -/
theorem C9_amended (s token : String) :
    validate_txid s token =
      (!s.isEmpty && claimed_txid_shape token (pyStrip s)) := by
  by_cases hs : s.isEmpty <;>
    simp only [validate_txid, claimed_txid_shape, hs, Bool.not_true,
      Bool.not_false, Bool.false_and, Bool.true_and, if_true, if_false] <;>
    split_ifs with h1 h2 h3 h4 h5 h6 h7 <;>
    simp_all

/-- Looking up a user just erased from an association list finds
nothing. -/
theorem lookupUser_erase_self {α : Type} (m : List (Nat × α)) (uid : Nat) :
    lookupUser (eraseUser m uid) uid = none := by
  unfold lookupUser eraseUser
  rw [List.find?_eq_none.mpr]
  · rfl
  · intro e he
    have := (List.mem_filter.mp he).2
    simpa using this

/-- The fee-payment ids already referenced by withdrawal records. -/
def feeIds (st : DBState) : List Nat :=
  st.withdrawals.map (·.fee_payment_id)

/-- A payment returned by `find_latest_verified_unconsumed` is not yet
referenced by any withdrawal. -/
theorem find_unconsumed_not_consumed {st : DBState} {uid : Nat}
    {asset : String} {fp : FeePayment}
    (h : st.find_latest_verified_unconsumed uid asset = some fp) :
    fp.id ∉ feeIds st := by
  have hpred := List.find?_some h
  simp only [Bool.and_eq_true, Bool.not_eq_true'] at hpred
  intro hmem
  rcases List.mem_map.mp hmem with ⟨w, hw, hwid⟩
  have hcons : st.isConsumed fp.id = true := by
    unfold DBState.isConsumed
    exact List.any_eq_true.mpr ⟨w, hw, by simp [hwid]⟩
  rw [hpred.2] at hcons
  exact Bool.false_ne_true hcons

/-- A concrete pending BTC fee payment used by witnesses and
counterexamples. -/
def samplePayment : FeePayment :=
  { id := 1, user_id := 7, token := "BTC", expected_amount := 5,
    txid := "0123456789abcdef0123456789abcdef0123456789abcdef0123456789abcdef",
    network := "Bitcoin Network", withdrawal_token := "BTC",
    withdrawal_amount := 50, confirmations := 0, status := .pending }

/-- A concrete database holding `samplePayment` and a 50 BTC holding for
user 7. -/
def sampleDB : DBState :=
  { feePayments := [samplePayment], withdrawals := [],
    portfolio := [((7, "BTC"), 50)], nextPaymentId := 2,
    nextWithdrawalId := 1 }

/-- A concrete empty database. -/
def emptyDB : DBState :=
  { feePayments := [], withdrawals := [], portfolio := [],
    nextPaymentId := 1, nextWithdrawalId := 1 }

/-- C4, counterexample: a pending BTC payment whose owning user has left
the withdrawal conversation (the membership test at line 6113 is false at
every iteration).  The accrual task runs to completion, yet
`mark_verified` is never called — the `mark_fee_payment_verified` call at
line 6118 sits inside the `if user_id in user_withdrawal_states` block —
and the payment stays pending, contradicting the claim that verification
happens even after cancellation. -/
theorem C4_counterexample :
    (simulate_blockchain_confirmations sampleDB 1
        (get_token_confirmation_requirement "BTC") none
        (fun _ => false)).verifiedCalled = false ∧
      statusOf
        (simulate_blockchain_confirmations sampleDB 1
          (get_token_confirmation_requirement "BTC") none
          (fun _ => false)).final 1 = some .pending := by
  refine ⟨by decide, by decide⟩

/-- C4, amended: when the confirmation index reaches
`required_confirmations(asset)`, the scheduler calls `mark_verified` on
the payment provided the owning user still has an active withdrawal
conversation state at that final step; the task is indifferent to
notification delivery (no notification input appears in the model at
all), but if the user has cancelled by the final step, verification is
skipped, not merely the notification. -/
theorem C4_amended (db : DBState) (pid : Nat) (token : String)
    (activeAt : Nat → Bool) (p : FeePayment)
    (hp : db.get_fee_payment_by_id pid = some p)
    (hpend : statusOf db pid = some .pending)
    (hact : activeAt (get_token_confirmation_requirement token) = true) :
    (simulate_blockchain_confirmations db pid
        (get_token_confirmation_requirement token) none
        activeAt).verifiedCalled = true ∧
      statusOf
        (simulate_blockchain_confirmations db pid
          (get_token_confirmation_requirement token) none activeAt).final pid
        = some .verified := by
  unfold simulate_blockchain_confirmations
  rw [hp]
  have hv := schedLoop_completes pid (get_token_confirmation_requirement token)
    activeAt hact (get_token_confirmation_requirement token) 1 db
    (by omega) (one_le_requirement token)
  exact ⟨hv, schedLoop_verified_status _ _ _ _ _ 1 db hpend hv⟩

/-- C4, witness for the amended theorem: with the user still present
throughout, the sample BTC payment is verified. -/
theorem C4_amended_witness :
    (simulate_blockchain_confirmations sampleDB 1
        (get_token_confirmation_requirement "BTC") none
        (fun _ => true)).verifiedCalled = true ∧
      statusOf
        (simulate_blockchain_confirmations sampleDB 1
          (get_token_confirmation_requirement "BTC") none
          (fun _ => true)).final 1 = some .verified :=
  C4_amended sampleDB 1 "BTC" (fun _ => true) samplePayment (by decide)
    (by decide) rfl

/-- C5, counterexample: when the payment record has vanished from the
ledger, the task returns at lines 6062-6064 without calling
`mark_rejected` — the database is untouched and no terminal status is
set, contradicting the claim that a vanished record leads to a rejected
status. -/
theorem C5_counterexample :
    (simulate_blockchain_confirmations emptyDB 1
        (get_token_confirmation_requirement "BTC") none
        (fun _ => true)).rejectedCalled = false ∧
      (simulate_blockchain_confirmations emptyDB 1
        (get_token_confirmation_requirement "BTC") none
        (fun _ => true)).final = emptyDB :=
  ⟨rfl, rfl⟩

/-- C5, amended: an unexpected failure raised inside the confirmation
loop does lead the outer handler (lines 6145-6148) to call
`mark_rejected`, leaving a pending payment terminally rejected; but a
payment record that is already missing when the task starts causes a
silent return with no `mark_rejected` and no status change. -/
theorem C5_amended (db : DBState) (pid j : Nat) (token : String)
    (activeAt : Nat → Bool) (p : FeePayment)
    (hp : db.get_fee_payment_by_id pid = some p)
    (hpend : statusOf db pid = some .pending)
    (hj1 : 1 ≤ j) (hjr : j ≤ get_token_confirmation_requirement token) :
    (simulate_blockchain_confirmations db pid
        (get_token_confirmation_requirement token) (some j)
        activeAt).rejectedCalled = true ∧
      statusOf
        (simulate_blockchain_confirmations db pid
          (get_token_confirmation_requirement token) (some j) activeAt).final
        pid = some .rejected := by
  unfold simulate_blockchain_confirmations
  rw [hp]
  exact schedLoop_failure_rejects pid (get_token_confirmation_requirement token)
    j activeAt (get_token_confirmation_requirement token) 1 db hj1 (by omega)
    hjr hpend

/-- C5, witness for the amended theorem: a failure at the first iteration
of the sample payment's task rejects the payment. -/
theorem C5_amended_witness :
    (simulate_blockchain_confirmations sampleDB 1
        (get_token_confirmation_requirement "BTC") (some 1)
        (fun _ => true)).rejectedCalled = true ∧
      statusOf
        (simulate_blockchain_confirmations sampleDB 1
          (get_token_confirmation_requirement "BTC") (some 1)
          (fun _ => true)).final 1 = some .rejected :=
  C5_amended sampleDB 1 1 "BTC" (fun _ => true) samplePayment (by decide)
    (by decide) (by decide) (by decide)

/-- C6: over any run of a payment's accrual task — any failure point, any
pattern of user presence — the sequence of confirmation counts written to
the ledger is non-decreasing, never exceeds
`required_confirmations(asset)`, and equals exactly that requirement at
the moment `mark_verified` is called. -/
theorem C6_confirmations_monotone_capped (db : DBState) (pid : Nat)
    (token : String) (failAt : Option Nat) (activeAt : Nat → Bool) :
    List.Chain' (· ≤ ·)
        (simulate_blockchain_confirmations db pid
          (get_token_confirmation_requirement token) failAt activeAt).writes ∧
      (∀ c ∈ (simulate_blockchain_confirmations db pid
          (get_token_confirmation_requirement token) failAt activeAt).writes,
        c ≤ get_token_confirmation_requirement token) ∧
      ((simulate_blockchain_confirmations db pid
          (get_token_confirmation_requirement token) failAt
          activeAt).verifiedCalled = true →
        (simulate_blockchain_confirmations db pid
          (get_token_confirmation_requirement token) failAt
          activeAt).writes.getLast? =
          some (get_token_confirmation_requirement token)) := by
  unfold simulate_blockchain_confirmations
  cases hq : db.get_fee_payment_by_id pid with
  | none => exact ⟨List.chain'_nil, by simp, by simp⟩
  | some p =>
      obtain ⟨m, hm, hw⟩ := schedLoop_writes pid
        (get_token_confirmation_requirement token) failAt activeAt
        (get_token_confirmation_requirement token) 1 db
      refine ⟨?_, ?_, ?_⟩
      · rw [hw]
        exact List.chain'_iff_pairwise.mpr (List.pairwise_le_range' 1 m)
      · intro c hc
        rw [hw] at hc
        have := List.mem_range'_1.mp hc
        omega
      · exact schedLoop_verified_last pid _ failAt activeAt
          (get_token_confirmation_requirement token) 1 db
          (one_le_requirement token)

/-- C6, witness at a concrete run: the sample BTC payment's task, with
the user present and no failure, writes its counts up to the requirement
2 and ends on exactly 2. -/
theorem C6_witness :
    (simulate_blockchain_confirmations sampleDB 1
        (get_token_confirmation_requirement "BTC") none
        (fun _ => true)).writes.getLast? =
      some (get_token_confirmation_requirement "BTC") :=
  (C6_confirmations_monotone_capped sampleDB 1 "BTC" none
      (fun _ => true)).2.2 (by decide)

/-- A withdrawal conversation state at the TXID-entry step for an ETH
withdrawal. -/
def ethTxidWState : WUserState :=
  { token := "ETH", withdrawal_token := "ETH", withdrawal_amount := 40,
    fee_amount := 4, net_amount := 36, step := "entering_txid",
    payment_id := none, txid := none, fee_verified := false }

/-- A withdrawal conversation state at the TXID-entry step for a BTC
withdrawal. -/
def btcTxidWState : WUserState :=
  { token := "BTC", withdrawal_token := "BTC", withdrawal_amount := 50,
    fee_amount := 5, net_amount := 45, step := "entering_txid",
    payment_id := none, txid := none, fee_verified := false }

/-- C3, counterexample: `samplePayment.txid` (a 64-hex BTC-format id) is
already present in the ledger, yet when user 8 — whose withdrawal flow is
for ETH — submits exactly that id, the format check at line 5913 fires
first and the submission is rejected with the generic format-validation
error, not the replay error, contradicting the claim that every
already-present txid gets the replay rejection. -/
theorem C3_counterexample :
    (sampleDB.get_fee_payment_by_txid samplePayment.txid).isSome = true ∧
      (process_txid_input ⟨sampleDB, [(8, ethTxidWState)]⟩ 8
          samplePayment.txid "Ethereum Network").1 = .invalidFormat ∧
      (process_txid_input ⟨sampleDB, [(8, ethTxidWState)]⟩ 8
          samplePayment.txid "Ethereum Network").1 ≠ .alreadyUsed := by
  refine ⟨by decide, by decide, by decide⟩

/-- C3, amended: a submitted transaction id that passes the asset's format
validation and is already present in the fee-payment ledger
(case-sensitive exact match, regardless of which user owns the prior
record) is rejected with the replay error — an outcome distinct from the
format-validation error — and the whole system state, the prior record's
status and fields included, is left untouched. -/
theorem C3_amended (sys : SysState) (uid : Nat) (wst : WUserState)
    (txid fee_network : String) (p : FeePayment)
    (hw : lookupUser sys.wstates uid = some wst)
    (hstep : wst.step = "entering_txid")
    (hvalid : validate_txid txid wst.token = true)
    (hdup : sys.db.get_fee_payment_by_txid txid = some p) :
    process_txid_input sys uid txid fee_network = (.alreadyUsed, sys) ∧
      TxidOutcome.alreadyUsed ≠ TxidOutcome.invalidFormat := by
  refine ⟨?_, by decide⟩
  unfold process_txid_input
  rw [hw]
  simp only [hstep, hvalid, hdup, beq_self_eq_true, Bool.not_true,
    Bool.false_eq_true, if_false]

/-- C3, witness for the amended theorem: user 3, in a BTC flow, submits
the txid user 7's prior record already carries; the replay rejection
fires and nothing changes. -/
theorem C3_amended_witness :
    process_txid_input ⟨sampleDB, [(3, btcTxidWState)]⟩ 3 samplePayment.txid
        "Bitcoin Network"
      = (.alreadyUsed, ⟨sampleDB, [(3, btcTxidWState)]⟩) ∧
      TxidOutcome.alreadyUsed ≠ TxidOutcome.invalidFormat :=
  C3_amended ⟨sampleDB, [(3, btcTxidWState)]⟩ 3 btcTxidWState
    samplePayment.txid "Bitcoin Network" samplePayment rfl rfl (by decide)
    (by decide)

/-- A withdrawal conversation state at the address-entry step for a BTC
withdrawal. -/
def btcAddrWState : WUserState :=
  { token := "BTC", withdrawal_token := "BTC", withdrawal_amount := 50,
    fee_amount := 5, net_amount := 45, step := "entering_address",
    payment_id := some 1, txid := none, fee_verified := false }

/-- A concrete destination address of valid length. -/
def sampleAddr : String := "bc1qexampledestination0123456789abcdef"

/-- C1: with no verified-and-unconsumed fee payment on the ledger for the
user and fee asset, (i) the atomic gate returns the structured rejection
whose machine-readable reason is `no_verified_fee_payment` and leaves the
database exactly as it was; (ii) the destination-address handler invoked
on such a state surfaces exactly that reason and mutates no database
state; and (iii) re-entering the address-entry step directly afterwards
(the `enter_address_` callback on the post-rejection state, where the
withdrawal conversation was cleared) re-checks the ledger and is refused
with the security-block message, changing nothing. -/
theorem C1_gate_rejection (sys : SysState) (uid : Nat) (wst : WUserState)
    (addr : String) (g : ℚ) (a2 : String)
    (hw : lookupUser sys.wstates uid = some wst)
    (hfee : sys.db.find_latest_verified_unconsumed uid
        (get_fee_payment_token wst.token) = none)
    (hfee2 : sys.db.find_latest_verified_unconsumed uid wst.token = none)
    (hlen : 20 ≤ (pyStrip addr).length)
    (hlen2 : (pyStrip addr).length ≤ 100)
    (hold : sys.db.getHolding uid wst.token = some g) :
    atomic_create_verified_withdrawal sys.db uid wst.token g a2
        = (.rejected "no_verified_fee_payment"
            "No verified fee payment found for this withdrawal", sys.db) ∧
      (process_withdrawal_address_input sys uid addr).1
          = .securityBlock "no_verified_fee_payment" ∧
      (process_withdrawal_address_input sys uid addr).2.db = sys.db ∧
      handle_enter_address_callback
          (process_withdrawal_address_input sys uid addr).2 uid wst.token
        = (.securityBlockMsg,
            (process_withdrawal_address_input sys uid addr).2) := by
  have hgate : atomic_create_verified_withdrawal sys.db uid wst.token g a2
      = (.rejected "no_verified_fee_payment"
          "No verified fee payment found for this withdrawal", sys.db) := by
    unfold atomic_create_verified_withdrawal
    rw [hfee]
  have hlenc : ((pyStrip addr).length < 20 || (pyStrip addr).length > 100)
      = false := by
    simp only [Bool.or_eq_false_iff, decide_eq_false_iff_not]
    omega
  have hproc : process_withdrawal_address_input sys uid addr
      = (.securityBlock "no_verified_fee_payment",
          { db := sys.db, wstates := eraseUser sys.wstates uid }) := by
    unfold process_withdrawal_address_input
    rw [hw]
    simp only [hlenc, Bool.false_eq_true, if_false, hold]
    have hgate2 : atomic_create_verified_withdrawal sys.db uid wst.token g
        (pyStrip addr)
        = (.rejected "no_verified_fee_payment"
            "No verified fee payment found for this withdrawal", sys.db) := by
      unfold atomic_create_verified_withdrawal
      rw [hfee]
    rw [hgate2]
  refine ⟨hgate, ?_, ?_, ?_⟩
  · rw [hproc]
  · rw [hproc]
  · rw [hproc]
    unfold handle_enter_address_callback
    rw [lookupUser_erase_self]
    simp [hfee2]

/-- C1, witness: user 7 only has a pending (not verified) BTC fee payment,
so the gate, the address handler and the re-entered callback all refuse on
the sample state. -/
theorem C1_gate_rejection_witness :
    atomic_create_verified_withdrawal sampleDB 7 btcAddrWState.token 50
        sampleAddr
        = (.rejected "no_verified_fee_payment"
            "No verified fee payment found for this withdrawal", sampleDB) ∧
      (process_withdrawal_address_input ⟨sampleDB, [(7, btcAddrWState)]⟩ 7
          sampleAddr).1 = .securityBlock "no_verified_fee_payment" ∧
      (process_withdrawal_address_input ⟨sampleDB, [(7, btcAddrWState)]⟩ 7
          sampleAddr).2.db = sampleDB ∧
      handle_enter_address_callback
          (process_withdrawal_address_input ⟨sampleDB, [(7, btcAddrWState)]⟩
            7 sampleAddr).2 7 btcAddrWState.token
        = (.securityBlockMsg,
            (process_withdrawal_address_input ⟨sampleDB, [(7, btcAddrWState)]⟩
              7 sampleAddr).2) :=
  C1_gate_rejection ⟨sampleDB, [(7, btcAddrWState)]⟩ 7 btcAddrWState
    sampleAddr 50 sampleAddr rfl (by decide) (by decide) (by decide)
    (by decide) (by decide)

/-- Reading a holding right after `update_portfolio` wrote it. -/
theorem getHolding_update (st : DBState) (uid : Nat) (tok : String) (d : ℚ) :
    (st.update_portfolio uid tok d).getHolding uid tok
      = some (max 0 ((st.getHolding uid tok).getD 0 + d)) := by
  unfold DBState.update_portfolio DBState.getHolding
  rw [List.find?_cons_of_pos _ (by simp)]
  rfl

/-- One gate invocation preserves distinctness of the consumed
fee-payment ids. -/
theorem gate_preserves_nodup (st : DBState) (uid : Nat) (tok : String)
    (g : ℚ) (a : String) (h : (feeIds st).Nodup) :
    (feeIds (atomic_create_verified_withdrawal st uid tok g a).2).Nodup := by
  unfold atomic_create_verified_withdrawal
  cases hf : st.find_latest_verified_unconsumed uid
      (get_fee_payment_token tok) with
  | none => exact h
  | some fp =>
      by_cases hle : g ≤ (st.getHolding uid tok).getD 0
      · simp only [hle, if_true]
        exact List.nodup_cons.mpr ⟨find_unconsumed_not_consumed hf, h⟩
      · simp only [hle, if_false]
        exact h

/-- One queued invocation of the atomic gate: the duplicate or concurrent
calls of spec section 5 are serialized by the gate's single-writer
discipline into a list of such calls. -/
structure GateCall where
  user_id : Nat
  token : String
  amount : ℚ
  address : String
deriving DecidableEq, Repr

/-- Run a list of gate invocations in order against the database. -/
def runGateCalls (st : DBState) : List GateCall → DBState
  | [] => st
  | c :: cs =>
      runGateCalls
        (atomic_create_verified_withdrawal st c.user_id c.token c.amount
          c.address).2 cs

/-- C2: (a) every gate invocation either rejects and returns the database
bit-for-bit unchanged, or — in one indivisible state transition — both
prepends exactly one Withdrawal record consuming a previously unconsumed
FeePayment id and debits the user's holding by the gross amount, so no
intermediate state with a debit but no record exists; and (b) across any
sequence of invocations (duplicate and concurrent calls serialized by the
gate), no FeePayment id ever becomes referenced by two Withdrawal
records. -/
theorem C2_atomic_consumption (st : DBState) (uid : Nat) (tok : String)
    (g : ℚ) (a : String) (calls : List GateCall)
    (h : (feeIds st).Nodup) :
    ((atomic_create_verified_withdrawal st uid tok g a).1.success = false ∧
        (atomic_create_verified_withdrawal st uid tok g a).2 = st ∨
      ∃ w : Withdrawal,
        (atomic_create_verified_withdrawal st uid tok g a).1.success = true ∧
        (atomic_create_verified_withdrawal st uid tok g a).2.withdrawals
            = w :: st.withdrawals ∧
        w.fee_payment_id ∉ feeIds st ∧
        (atomic_create_verified_withdrawal st uid tok g a).2.getHolding uid tok
            = some ((st.getHolding uid tok).getD 0 - g)) ∧
      (feeIds (runGateCalls st calls)).Nodup := by
  constructor
  · unfold atomic_create_verified_withdrawal
    cases hf : st.find_latest_verified_unconsumed uid
        (get_fee_payment_token tok) with
    | none => exact Or.inl ⟨rfl, rfl⟩
    | some fp =>
        by_cases hle : g ≤ (st.getHolding uid tok).getD 0
        · refine Or.inr
            ⟨{ id := st.nextWithdrawalId, user_id := uid, token := tok,
               amount := g, fee_amount := g * (1 / 10),
               fee_token := get_fee_payment_token tok, fee_txid := fp.txid,
               fee_payment_id := fp.id, to_address := a }, ?_, ?_, ?_, ?_⟩
          · simp [hle, GateResult.success]
          · simp only [hle, if_true]
            rfl
          · simp only [hle, if_true]
            exact find_unconsumed_not_consumed hf
          · simp only [hle, if_true]
            rw [getHolding_update]
            congr 1
            have h0 : (0 : ℚ) ≤ (st.getHolding uid tok).getD 0 + -g := by
              linarith
            rw [sub_eq_add_neg]
            exact max_eq_right h0
        · refine Or.inl ⟨?_, ?_⟩ <;> simp [hle, GateResult.success]
  · induction calls generalizing st with
    | nil => exact h
    | cons c cs ih =>
        exact ih _ (gate_preserves_nodup st c.user_id c.token c.amount
          c.address h)

/-- A verified copy of `samplePayment` and a database carrying it. -/
def verifiedPayment : FeePayment :=
  { samplePayment with status := .verified }

/-- `sampleDB` with the fee payment verified instead of pending. -/
def verifiedDB : DBState :=
  { sampleDB with feePayments := [verifiedPayment] }

/-- C2, witness: running the gate twice in a row for the same user on the
sample verified state keeps all consumed fee-payment ids distinct, and a
single invocation there is an all-or-nothing step. -/
theorem C2_atomic_consumption_witness :
    ((atomic_create_verified_withdrawal verifiedDB 7 "BTC" 50
          sampleAddr).1.success = false ∧
        (atomic_create_verified_withdrawal verifiedDB 7 "BTC" 50
          sampleAddr).2 = verifiedDB ∨
      ∃ w : Withdrawal,
        (atomic_create_verified_withdrawal verifiedDB 7 "BTC" 50
          sampleAddr).1.success = true ∧
        (atomic_create_verified_withdrawal verifiedDB 7 "BTC" 50
          sampleAddr).2.withdrawals = w :: verifiedDB.withdrawals ∧
        w.fee_payment_id ∉ feeIds verifiedDB ∧
        (atomic_create_verified_withdrawal verifiedDB 7 "BTC" 50
            sampleAddr).2.getHolding 7 "BTC"
          = some ((verifiedDB.getHolding 7 "BTC").getD 0 - 50)) ∧
      (feeIds (runGateCalls verifiedDB
        [⟨7, "BTC", 50, sampleAddr⟩, ⟨7, "BTC", 50, sampleAddr⟩])).Nodup :=
  C2_atomic_consumption verifiedDB 7 "BTC" 50 sampleAddr
    [⟨7, "BTC", 50, sampleAddr⟩, ⟨7, "BTC", 50, sampleAddr⟩] (by decide)

/-- A holding is unaffected by replacing the withdrawal list and the next
withdrawal id. -/
theorem getHolding_withdrawals_irrelevant (st : DBState)
    (W : List Withdrawal) (n : Nat) (uid : Nat) (tok : String) :
    DBState.getHolding
        { st with withdrawals := W, nextWithdrawalId := n } uid tok
      = st.getHolding uid tok := rfl

/-- C10: on the destination-address path with a verified unconsumed fee
payment available, the gross amount of the created Withdrawal record is
the user's entire current holding of the state's token (the conversation
state `wst` — including whatever withdrawal amount was shown earlier — is
arbitrary here and does not determine it), the fee is 10 percent of that
entire holding, and afterwards the user's holding of that token is zero. -/
theorem C10_full_holding_withdrawal (sys : SysState) (uid : Nat)
    (wst : WUserState) (addr : String) (q : ℚ) (fp : FeePayment)
    (hw : lookupUser sys.wstates uid = some wst)
    (hlen : 20 ≤ (pyStrip addr).length)
    (hlen2 : (pyStrip addr).length ≤ 100)
    (hold : sys.db.getHolding uid wst.token = some q) (hq : 0 ≤ q)
    (hfp : sys.db.find_latest_verified_unconsumed uid
        (get_fee_payment_token wst.token) = some fp) :
    ∃ w : Withdrawal,
      (process_withdrawal_address_input sys uid addr).2.db.withdrawals
          = w :: sys.db.withdrawals ∧
        w.amount = q ∧
        w.fee_amount = q / 10 ∧
        (process_withdrawal_address_input sys uid addr).1
          = .approved w.id w.fee_amount w.fee_token w.fee_txid ∧
        (process_withdrawal_address_input sys uid addr).2.db.getHolding uid
            wst.token = some 0 := by
  have hlenc : ((pyStrip addr).length < 20 || (pyStrip addr).length > 100)
      = false := by
    simp only [Bool.or_eq_false_iff, decide_eq_false_iff_not]
    omega
  have hle : q ≤ (sys.db.getHolding uid wst.token).getD 0 := by
    rw [hold]; exact le_refl q
  have hgate : atomic_create_verified_withdrawal sys.db uid wst.token q
      (pyStrip addr)
      = (.approved sys.db.nextWithdrawalId (q * (1 / 10))
          (get_fee_payment_token wst.token) (q - q * (1 / 10)) fp.txid,
        DBState.update_portfolio
          { sys.db with
            withdrawals :=
              { id := sys.db.nextWithdrawalId, user_id := uid,
                token := wst.token, amount := q,
                fee_amount := q * (1 / 10),
                fee_token := get_fee_payment_token wst.token,
                fee_txid := fp.txid, fee_payment_id := fp.id,
                to_address := pyStrip addr } :: sys.db.withdrawals,
            nextWithdrawalId := sys.db.nextWithdrawalId + 1 }
          uid wst.token (-q)) := by
    unfold atomic_create_verified_withdrawal
    rw [hfp]
    simp only [hle, if_true]
  refine ⟨{ id := sys.db.nextWithdrawalId, user_id := uid,
            token := wst.token, amount := q, fee_amount := q * (1 / 10),
            fee_token := get_fee_payment_token wst.token,
            fee_txid := fp.txid, fee_payment_id := fp.id,
            to_address := pyStrip addr }, ?_, rfl, by ring, ?_, ?_⟩ <;>
    unfold process_withdrawal_address_input <;>
    rw [hw] <;>
    simp only [hlenc, Bool.false_eq_true, if_false, hold, hgate]
  · rfl
  · rw [getHolding_update, getHolding_update,
      getHolding_withdrawals_irrelevant, hold]
    have hz : max 0 (max 0 (q + -q) + -q) = (0 : ℚ) := by
      rw [show q + -q = (0 : ℚ) from by ring, max_self, zero_add]
      exact max_eq_left (by linarith)
    simp only [Option.getD_some, hz]

/-- A withdrawal conversation state whose stored amounts deliberately
disagree with the portfolio, to witness that they do not matter. -/
def staleAmountsWState : WUserState :=
  { token := "BTC", withdrawal_token := "BTC", withdrawal_amount := 3,
    fee_amount := 1, net_amount := 2, step := "entering_address",
    payment_id := some 1, txid := none, fee_verified := true }

/-- C10, witness: user 7 holds 50 BTC and has a verified fee payment; the
address handler, run from a conversation state whose stored amounts say 3,
still withdraws all 50, charges 5, and zeroes the holding. -/
theorem C10_full_holding_withdrawal_witness :
    ∃ w : Withdrawal,
      (process_withdrawal_address_input
          ⟨verifiedDB, [(7, staleAmountsWState)]⟩ 7
          sampleAddr).2.db.withdrawals = w :: verifiedDB.withdrawals ∧
        w.amount = 50 ∧
        w.fee_amount = 50 / 10 ∧
        (process_withdrawal_address_input
            ⟨verifiedDB, [(7, staleAmountsWState)]⟩ 7 sampleAddr).1
          = .approved w.id w.fee_amount w.fee_token w.fee_txid ∧
        (process_withdrawal_address_input
            ⟨verifiedDB, [(7, staleAmountsWState)]⟩ 7
            sampleAddr).2.db.getHolding 7 "BTC" = some 0 :=
  C10_full_holding_withdrawal ⟨verifiedDB, [(7, staleAmountsWState)]⟩ 7
    staleAmountsWState sampleAddr 50 verifiedPayment rfl (by decide)
    (by decide) (by decide) (by decide) (by decide)

/-- C7: the router consults the state buckets in the fixed source
priority order — trader-id entry, wallet connection, admin balance
operation (admin-gated), admin ban operation (admin-gated), withdrawal
state with its `entering_txid` / address sub-branch, support and
bug-report states — dispatching each message to exactly the first
matching bucket, and answers with the generic default reply when nothing
matches.  Being a function into a single action, the router runs at most
one handler per message. -/
theorem C7_router_priority (adminId : Option Nat) (st : RouterState)
    (uid : Nat) (raw : String) :
    (st.users_inputting_trader_id.contains uid = true →
        (handle_text_input adminId st uid raw).1
          = .traderIdInput (pyStrip raw)) ∧
      (st.users_inputting_trader_id.contains uid = false →
        ∀ wt, lookupUser st.users_connecting_wallet uid = some wt →
          (handle_text_input adminId st uid raw).1
            = .walletCredentials wt (pyStrip raw)) ∧
      (st.users_inputting_trader_id.contains uid = false →
        lookupUser st.users_connecting_wallet uid = none →
        (lookupUser st.admin_balance_operations uid).isSome = true →
          (is_admin adminId uid = true →
            (handle_text_input adminId st uid raw).1
              = .adminBalanceInput (pyStrip raw)) ∧
          (is_admin adminId uid = false →
            (handle_text_input adminId st uid raw).1
              = .discardStaleAdminBalance)) ∧
      (st.users_inputting_trader_id.contains uid = false →
        lookupUser st.users_connecting_wallet uid = none →
        lookupUser st.admin_balance_operations uid = none →
        (lookupUser st.admin_ban_operations uid).isSome = true →
          (is_admin adminId uid = true →
            (handle_text_input adminId st uid raw).1
              = .adminBanInput (pyStrip raw)) ∧
          (is_admin adminId uid = false →
            (handle_text_input adminId st uid raw).1
              = .discardStaleAdminBan)) ∧
      (st.users_inputting_trader_id.contains uid = false →
        lookupUser st.users_connecting_wallet uid = none →
        lookupUser st.admin_balance_operations uid = none →
        lookupUser st.admin_ban_operations uid = none →
        ∀ w, lookupUser st.user_withdrawal_states uid = some w →
          ((w.step == "entering_txid") = true →
            (handle_text_input adminId st uid raw).1
              = .txidInput (pyStrip raw)) ∧
          ((w.step == "entering_txid") = false →
            (handle_text_input adminId st uid raw).1
              = .addressInput (pyStrip raw))) ∧
      (st.users_inputting_trader_id.contains uid = false →
        lookupUser st.users_connecting_wallet uid = none →
        lookupUser st.admin_balance_operations uid = none →
        lookupUser st.admin_ban_operations uid = none →
        lookupUser st.user_withdrawal_states uid = none →
        ∀ s, lookupUser st.user_states uid = some s →
          (s = "waiting_for_support_message" →
            (handle_text_input adminId st uid raw).1
              = .supportMessage (pyStrip raw)) ∧
          (s = "waiting_for_bug_report" →
            (handle_text_input adminId st uid raw).1
              = .bugReport (pyStrip raw)) ∧
          (s ≠ "waiting_for_support_message" → s ≠ "waiting_for_bug_report" →
            (handle_text_input adminId st uid raw).1 = .defaultReply)) ∧
      (st.users_inputting_trader_id.contains uid = false →
        lookupUser st.users_connecting_wallet uid = none →
        lookupUser st.admin_balance_operations uid = none →
        lookupUser st.admin_ban_operations uid = none →
        lookupUser st.user_withdrawal_states uid = none →
        lookupUser st.user_states uid = none →
          (handle_text_input adminId st uid raw).1 = .defaultReply) := by
  refine ⟨?_, ?_, ?_, ?_, ?_, ?_, ?_⟩
  · intro h1
    have h1' : uid ∈ st.users_inputting_trader_id := by simpa using h1
    simp [handle_text_input, h1']
  · intro h1 wt h2
    have h1' : uid ∉ st.users_inputting_trader_id := by simpa using h1
    simp [handle_text_input, h1', h2]
  · intro h1 h2 h3
    have h1' : uid ∉ st.users_inputting_trader_id := by simpa using h1
    constructor <;> intro h4 <;> simp [handle_text_input, h1', h2, h3, h4]
  · intro h1 h2 h3 h4
    have h1' : uid ∉ st.users_inputting_trader_id := by simpa using h1
    constructor <;> intro h5 <;>
      simp [handle_text_input, h1', h2, h3, h4, h5]
  · intro h1 h2 h3 h4 w h5
    have h1' : uid ∉ st.users_inputting_trader_id := by simpa using h1
    constructor <;> intro h6 <;>
      simp [handle_text_input, h1', h2, h3, h4, h5, h6]
  · intro h1 h2 h3 h4 h5 s h6
    have h1' : uid ∉ st.users_inputting_trader_id := by simpa using h1
    refine ⟨?_, ?_, ?_⟩
    · intro h7
      simp [handle_text_input, h1', h2, h3, h4, h5, h6, h7]
    · intro h7
      subst h7
      simp [handle_text_input, h1', h2, h3, h4, h5, h6]
    · intro h7 h8
      simp [handle_text_input, h1', h2, h3, h4, h5, h6, h7, h8]
  · intro h1 h2 h3 h4 h5 h6
    have h1' : uid ∉ st.users_inputting_trader_id := by simpa using h1
    simp [handle_text_input, h1', h2, h3, h4, h5, h6]

/-- A router state with one stale non-admin state of every admin kind for
user 2 and a trader-id flag for user 7. -/
def sampleRouterState : RouterState :=
  { users_inputting_trader_id := [7], users_connecting_wallet := [],
    admin_balance_operations := [(2, "add")],
    admin_ban_operations := [(2, "ban")],
    user_withdrawal_states := [], user_states := [] }

/-- C7, witness at a concrete input: user 7's message is consumed by the
trader-id bucket, which is first in priority. -/
theorem C7_router_priority_witness :
    (handle_text_input (some 1) sampleRouterState 7 " hello ").1
      = .traderIdInput (pyStrip " hello ") :=
  (C7_router_priority (some 1) sampleRouterState 7 " hello ").1 (by decide)

/-- C8, counterexample: non-admin user 2 sends text while an
admin-balance-operation state exists for their id; the router drops the
state at line 5294 and returns with no reply at all, so the user does not
receive the default generic guidance response the claim promises. -/
theorem C8_counterexample :
    (handle_text_input (some 1) sampleRouterState 2 "999").1
        = .discardStaleAdminBalance ∧
      (handle_text_input (some 1) sampleRouterState 2 "999").1
        ≠ .defaultReply := by
  refine ⟨by decide, by decide⟩

/-- C8, amended: for a non-admin whose id carries a stale
admin-balance-operation state, the router discards that state without
acting on it — no balance-input handler (the only path to a balance
mutation) runs, every other state bucket is left untouched — and the
handler returns silently, sending no reply (not even the default generic
response); the admin-ban analogue behaves the same way. -/
theorem C8_amended (adminId : Option Nat) (st : RouterState) (uid : Nat)
    (raw : String)
    (htr : st.users_inputting_trader_id.contains uid = false)
    (hwl : lookupUser st.users_connecting_wallet uid = none)
    (hadm : is_admin adminId uid = false) :
    ((lookupUser st.admin_balance_operations uid).isSome = true →
        (handle_text_input adminId st uid raw).1 = .discardStaleAdminBalance ∧
        lookupUser
            (handle_text_input adminId st uid raw).2.admin_balance_operations
            uid = none ∧
        (handle_text_input adminId st uid raw).2.user_withdrawal_states
            = st.user_withdrawal_states ∧
        (handle_text_input adminId st uid raw).2.user_states
            = st.user_states) ∧
      (lookupUser st.admin_balance_operations uid = none →
        (lookupUser st.admin_ban_operations uid).isSome = true →
        (handle_text_input adminId st uid raw).1 = .discardStaleAdminBan ∧
        lookupUser
            (handle_text_input adminId st uid raw).2.admin_ban_operations
            uid = none) := by
  have htr' : uid ∉ st.users_inputting_trader_id := by simpa using htr
  constructor
  · intro hb
    have hmain : handle_text_input adminId st uid raw
        = (.discardStaleAdminBalance,
            { st with admin_balance_operations :=
                eraseUser st.admin_balance_operations uid }) := by
      simp [handle_text_input, htr', hwl, hb, hadm]
    rw [hmain]
    exact ⟨rfl, lookupUser_erase_self _ _, rfl, rfl⟩
  · intro hb hban
    have hmain : handle_text_input adminId st uid raw
        = (.discardStaleAdminBan,
            { st with admin_ban_operations :=
                eraseUser st.admin_ban_operations uid }) := by
      simp [handle_text_input, htr', hwl, hb, hban, hadm]
    rw [hmain]
    exact ⟨rfl, lookupUser_erase_self _ _⟩

/-- C8, witness for the amended theorem: the stale states of non-admin
user 2 are discarded silently on the sample router state. -/
theorem C8_amended_witness :
    ((lookupUser sampleRouterState.admin_balance_operations 2).isSome = true →
        (handle_text_input (some 1) sampleRouterState 2 "999").1
            = .discardStaleAdminBalance ∧
        lookupUser
            (handle_text_input (some 1) sampleRouterState 2
              "999").2.admin_balance_operations 2 = none ∧
        (handle_text_input (some 1) sampleRouterState 2
            "999").2.user_withdrawal_states
            = sampleRouterState.user_withdrawal_states ∧
        (handle_text_input (some 1) sampleRouterState 2 "999").2.user_states
            = sampleRouterState.user_states) ∧
      (lookupUser sampleRouterState.admin_balance_operations 2 = none →
        (lookupUser sampleRouterState.admin_ban_operations 2).isSome = true →
        (handle_text_input (some 1) sampleRouterState 2 "999").1
            = .discardStaleAdminBan ∧
        lookupUser
            (handle_text_input (some 1) sampleRouterState 2
              "999").2.admin_ban_operations 2 = none) :=
  C8_amended (some 1) sampleRouterState 2 "999" (by decide) (by decide)
    (by decide)

/-- C9, witness for the amended theorem at a concrete input: a correctly
shaped 64-hex BTC txid is accepted. -/
theorem C9_amended_witness :
    validate_txid
        "0123456789abcdef0123456789abcdef0123456789abcdef0123456789abcdef"
        "BTC"
      = (!("0123456789abcdef0123456789abcdef0123456789abcdef0123456789abcdef" :
            String).isEmpty &&
          claimed_txid_shape "BTC"
            (pyStrip
              "0123456789abcdef0123456789abcdef0123456789abcdef0123456789abcdef")) :=
  C9_amended
    "0123456789abcdef0123456789abcdef0123456789abcdef0123456789abcdef" "BTC"

end Telecom
